import Mathlib

/-!
Verification of the KI-Gegen-Rechts analysis pipeline.

Shallow embedding of the two pipeline entry points of
`src/ki_gegen_rechts/analyser.py` (`analyse_text_message_with_llm` and
`parallel_text_analyser_chains`), of `OpenAIModerationChain._call` and
`JsonBooleanChecker.parse_result` from `src/ki_gegen_rechts/llm_chains.py`,
and of the prompt declarations of `src/ki_gegen_rechts/prompts.py`.

Modelling conventions:
* Python values flowing through the pipeline are `PyVal` (strings, booleans,
  integers, insertion-ordered dictionaries as association lists with unique
  keys, mirroring Python dict semantics).
* The LLM is an oracle: each chain invocation consumes a response, which is
  either transport-level failure (`Except.error`) or raw model text.
* JSON parsing (`JsonOutputParser`) is an oracle `String → Option PyDict`:
  `none` models `OutputParserException`, `some d` the decoded dictionary.
* Python exceptions are `Except.error` with a message naming the exception;
  an uncaught exception aborts the whole run, exactly as in the source.
* Moderation `category_scores` floats are represented opaquely as integers;
  no code under verification computes with them.
-/

set_option linter.unusedVariables false

/-- A Python value as it flows through the pipeline: JSON-shaped data. -/
inductive PyVal where
  | str : String → PyVal
  | bool : Bool → PyVal
  | int : Int → PyVal
  | dict : List (String × PyVal) → PyVal

/-- A Python dictionary (insertion ordered, unique keys). -/
abbrev PyDict := List (String × PyVal)

/-- Python dictionary lookup `d[key]`, first (unique) matching key. -/
def dictGet : PyDict → String → Option PyVal
  | [], _ => none
  | (k, v) :: rest, key => if k = key then some v else dictGet rest key

/-- Python dictionary assignment `d[key] = v`: replace in place, else append. -/
def dictSet : PyDict → String → PyVal → PyDict
  | [], key, v => [(key, v)]
  | (k, w) :: rest, key, v =>
      if k = key then (k, v) :: rest else (k, w) :: dictSet rest key v

/-- Python `d.update(e)` for a dictionary argument `e`. -/
def dictUpdate (d : PyDict) (e : PyDict) : PyDict :=
  e.foldl (fun acc p => dictSet acc p.1 p.2) d

/-- The keys of a dictionary, in insertion order (`list(d.keys())`). -/
def pyKeys (d : PyDict) : List String :=
  d.map Prod.fst

/-- Lookup of a key inside a `PyVal` that is a dictionary. -/
def pvGet : PyVal → String → Option PyVal
  | PyVal.dict d, key => dictGet d key
  | _, _ => none

/-- Chained key path lookup, e.g. `report["moderator"]["mod_results"]`. -/
def pyGetPath : PyVal → List String → Option PyVal
  | v, [] => some v
  | v, key :: keys =>
      match pvGet v key with
      | none => none
      | some w => pyGetPath w keys

/-- The moderation endpoint result `output.results[0].model_dump()`:
`{flagged, categories, category_scores}` (spec section 6). Scores are
opaque to the pipeline and represented as integers. -/
structure ModResult where
  flagged : Bool
  categories : List (String × Bool)
  category_scores : List (String × Int)
deriving DecidableEq

/-- The dictionary produced by `model_dump()` on a moderation result. -/
def modVal (r : ModResult) : PyVal :=
  PyVal.dict
    [("flagged", PyVal.bool r.flagged),
     ("categories", PyVal.dict (r.categories.map (fun p => (p.1, PyVal.bool p.2)))),
     ("category_scores", PyVal.dict (r.category_scores.map (fun p => (p.1, PyVal.int p.2))))]

/-- Prompt rendering: langchain validates the declared `input_variables`
against the supplied mapping and raises `KeyError` on the first missing
one; the rendered inputs are the values picked for the declared variables. -/
def renderInputs : List String → PyDict → Except String PyDict
  | [], _ => Except.ok []
  | v :: vs, input =>
      match dictGet input v with
      | none => Except.error ("KeyError: " ++ v)
      | some x =>
          match renderInputs vs input with
          | Except.error e => Except.error e
          | Except.ok r => Except.ok ((v, x) :: r)

/-- Output of one `prompt | llm | parser` chain in the sequential analyser:
a parsed dictionary (`JsonOutputParser` succeeded) or the raw model text
(fallback `StrOutputParser` after an `OutputParserException`). -/
inductive ChainOut where
  | parsed : PyDict → ChainOut
  | raw : String → ChainOut

/-- The value stored into `results[prompt.name]` for a chain output. -/
def chainOutVal : ChainOut → PyVal
  | ChainOut.parsed d => PyVal.dict d
  | ChainOut.raw s => PyVal.str s

/-- LLM oracle for one stage of the sequential analyser: the response to the
first (structured) invocation and to the plain-text retry, each either a
transport error or raw text. -/
structure StageEnv where
  resp1 : Except String String
  resp2 : Except String String

/-- One iteration of the loop body of `analyse_text_message_with_llm`
(analyser.py lines 107-115): render the prompt, invoke the model, try the
JSON parse; on `OutputParserException` log a warning and re-invoke the same
chain with `StrOutputParser`. Returns the outcome together with the number
of model invocations and whether the fallback warning was logged. -/
def runStage (decode : String → Option PyDict) (env : StageEnv)
    (vars : List String) (input : PyDict) :
    Except String ChainOut × Nat × Bool :=
  match renderInputs vars input with
  | Except.error e => (Except.error e, 0, false)
  | Except.ok _ =>
      match env.resp1 with
      | Except.error e => (Except.error e, 1, false)
      | Except.ok t =>
          match decode t with
          | some d => (Except.ok (ChainOut.parsed d), 1, false)
          | none =>
              match env.resp2 with
              | Except.error e => (Except.error e, 2, true)
              | Except.ok t2 => (Except.ok (ChainOut.raw t2), 2, true)

/-- Python `input.update(chain_output)` (analyser.py line 118): merging a
dictionary updates the mapping; `dict.update` applied to a string iterates
its characters as would-be key/value pairs and raises `ValueError` for any
non-empty string (single characters cannot be unpacked into two items). -/
def pyUpdate (d : PyDict) : ChainOut → Except String PyDict
  | ChainOut.parsed e => Except.ok (dictUpdate d e)
  | ChainOut.raw s =>
      if s.isEmpty then Except.ok d
      else Except.error
        "ValueError: dictionary update sequence element has length 1; 2 is required"

/-- Trace of one stage invocation of the sequential analyser: the stage
name, the shared input mapping at invocation time, the number of model
calls, and whether the fallback warning was logged. -/
structure TraceEntry where
  name : String
  input : PyDict
  calls : Nat
  warned : Bool

/-- A stage of the `_text_analyser_prompts` list: prompt name, declared
`input_variables`, and the LLM oracle responses for this stage. -/
structure StageSpec where
  name : String
  vars : List String
  env : StageEnv

/-- The loop of `analyse_text_message_with_llm` (analyser.py lines 107-120):
run the stages in list order over the shared `input` mapping, merging the
detector output into `input` in place; an uncaught exception aborts the
remaining stages. Also returns the invocation trace. -/
def runStages (decode : String → Option PyDict) :
    List StageSpec → PyDict → PyDict → Except String PyDict × List TraceEntry
  | [], _, results => (Except.ok results, [])
  | s :: rest, input, results =>
      match runStage decode s.env s.vars input with
      | (Except.error e, c, w) => (Except.error e, [⟨s.name, input, c, w⟩])
      | (Except.ok out, c, w) =>
          match (if s.name = "detector" then pyUpdate input out else Except.ok input) with
          | Except.error e => (Except.error e, [⟨s.name, input, c, w⟩])
          | Except.ok input2 =>
              ((runStages decode rest input2 (results ++ [(s.name, chainOutVal out)])).1,
               ⟨s.name, input, c, w⟩ ::
                 (runStages decode rest input2 (results ++ [(s.name, chainOutVal out)])).2)

/-- LLM and moderation oracles for one run of the sequential analyser. -/
structure SeqEnv where
  moderation : Except String ModResult
  detector : StageEnv
  validator : StageEnv
  classifier : StageEnv
  rater : StageEnv

/-- `HATESPEECH_DETECTOR_PROMPT`: name "detector", input variable
`message` (prompts.py lines 58-67). -/
def detectorSpec (env : SeqEnv) : StageSpec :=
  ⟨"detector", ["message"], env.detector⟩

/-- `HATESPEECH_VALIDATOR_PROMPT`: name "validator", declared input
variables `classification`, `explanation`, `message` (prompts.py
lines 110-119). -/
def validatorSpec (env : SeqEnv) : StageSpec :=
  ⟨"validator", ["classification", "explanation", "message"], env.validator⟩

/-- `HATESPEECH_CLASSIFICATION_PROMPT`: name "classifier", input variable
`message` (prompts.py lines 192-201). -/
def classifierSpec (env : SeqEnv) : StageSpec :=
  ⟨"classifier", ["message"], env.classifier⟩

/-- `RIGHT_WING_RATING_PROMPT`: name "right-wing-rater", input variable
`message` (prompts.py lines 240-249). -/
def raterSpec (env : SeqEnv) : StageSpec :=
  ⟨"right-wing-rater", ["message"], env.rater⟩

/-- The fixed `_text_analyser_prompts` list (analyser.py lines 30-35),
paired with the per-stage oracles. -/
def textAnalyserStages (env : SeqEnv) : List StageSpec :=
  [detectorSpec env, validatorSpec env, classifierSpec env, raterSpec env]

/-- `analyse_text_message_with_llm` (analyser.py lines 100-122): moderation
result first, then the four chains in a loop over the shared input mapping.
Returns the `results` dictionary (or the propagated exception) together with
the stage invocation trace. -/
def analyse_text_message_with_llm (decode : String → Option PyDict)
    (env : SeqEnv) (message : String) :
    Except String PyDict × List TraceEntry :=
  match env.moderation with
  | Except.error e => (Except.error e, [])
  | Except.ok mod =>
      runStages decode (textAnalyserStages env)
        [("message", PyVal.str message)] [("moderator", modVal mod)]

/-- `OpenAIModerationChain` (llm_chains.py lines 19-63): the configuration
fields relevant to `_call`, with their declared defaults. -/
structure OpenAIModerationChain where
  model_name : String := "text-moderation-latest"
  error : Bool := false
  input_key : String := "message"
  output_key : String := "mod_results"
deriving DecidableEq

/-- Lookup in a `Dict[str, str]` inputs mapping. -/
def lookupStr : List (String × String) → String → Option String
  | [], _ => none
  | (k, v) :: rest, key => if k = key then some v else lookupStr rest key

/-- `OpenAIModerationChain._call` (llm_chains.py lines 120-127):
`text = inputs[self.input_key]`, one client call, and the full first
moderation result wrapped under `self.output_key`. The `client` oracle
models `self.client.create(input=text, model=self.model_name)`. -/
def OpenAIModerationChain._call (chain : OpenAIModerationChain)
    (client : String → String → Except String (List ModResult))
    (inputs : List (String × String)) : Except String PyDict :=
  match lookupStr inputs chain.input_key with
  | none => Except.error ("KeyError: " ++ chain.input_key)
  | some text =>
      match client text chain.model_name with
      | Except.error e => Except.error e
      | Except.ok [] => Except.error "IndexError: list index out of range"
      | Except.ok (r :: _) => Except.ok [(chain.output_key, modVal r)]

/-- One `prompt | llm | JsonOutputParser` chain of the parallel analyser
(analyser.py lines 67-70): no fallback parser, an `OutputParserException`
propagates. -/
def runPlainChain (decode : String → Option PyDict)
    (resp : Except String String) (vars : List String) (input : PyDict) :
    Except String PyDict :=
  match renderInputs vars input with
  | Except.error e => Except.error e
  | Except.ok _ =>
      match resp with
      | Except.error e => Except.error e
      | Except.ok t =>
          match decode t with
          | some d => Except.ok d
          | none => Except.error "OutputParserException"

/-- Result of the `detection` branch of the parallel analyser, together
with the inputs that actually reached the validator prompt. -/
structure DetectionOut where
  output : PyDict
  validatorInputs : PyDict

/-- The `detector_chain | validator_chain` composition (analyser.py lines
72-86). After the detector chain, the dict literal
`{"message": RunnablePassthrough(), "classification": itemgetter(...),
"explanation": itemgetter(...)}` runs on the detector OUTPUT, so
`RunnablePassthrough()` binds `message` to the detector output dictionary.
The validator chain then produces `{"detector": {...}, "validator": ...}`. -/
def detectionBranch (decode : String → Option PyDict)
    (detResp valResp : Except String String) (input : PyDict) :
    Except String DetectionOut :=
  match runPlainChain decode detResp ["message"] input with
  | Except.error e => Except.error e
  | Except.ok det =>
      match dictGet det "classification" with
      | none => Except.error "KeyError: classification"
      | some cls =>
          match dictGet det "explanation" with
          | none => Except.error "KeyError: explanation"
          | some expl =>
              match renderInputs ["classification", "explanation", "message"]
                  [("message", PyVal.dict det), ("classification", cls),
                   ("explanation", expl)] with
              | Except.error e => Except.error e
              | Except.ok valIns =>
                  match runPlainChain decode valResp
                      ["classification", "explanation", "message"]
                      [("message", PyVal.dict det), ("classification", cls),
                       ("explanation", expl)] with
                  | Except.error e => Except.error e
                  | Except.ok valRes =>
                      Except.ok
                        ⟨[("detector",
                            PyVal.dict [("classification", cls), ("explanation", expl)]),
                          ("validator", PyVal.dict valRes)],
                         valIns⟩

/-- The branch outputs of one completed run of the parallel analyser:
the aggregate root over which the final report is assembled. -/
structure AnalysisRun where
  detection : PyDict
  classifier : PyDict
  right_wing_rater : PyDict
  moderator : PyDict

/-- The report assembly performed by `RunnableParallel` (analyser.py lines
88-93): the completed branch outputs keyed by branch name, in declaration
order. -/
def aggregate (run : AnalysisRun) : PyDict :=
  [("detection", PyVal.dict run.detection),
   ("classifier", PyVal.dict run.classifier),
   ("right_wing_rater", PyVal.dict run.right_wing_rater),
   ("moderator", PyVal.dict run.moderator)]

/-- LLM responses and moderation client for one run of the parallel
analyser. -/
structure ParEnv where
  detectorResp : Except String String
  validatorResp : Except String String
  classifierResp : Except String String
  raterResp : Except String String
  modClient : String → String → Except String (List ModResult)

/-- `parallel_text_analyser_chains(...).invoke({"message": message})`
(analyser.py lines 39-95): the four branches of the `RunnableParallel`; a
failing branch propagates its exception out of `invoke`, otherwise the
branch outputs are assembled into the report. -/
def parallel_text_analyser_chains (decode : String → Option PyDict)
    (env : ParEnv) (message : String) : Except String PyDict :=
  match detectionBranch decode env.detectorResp env.validatorResp
      [("message", PyVal.str message)] with
  | Except.error e => Except.error e
  | Except.ok dt =>
      match runPlainChain decode env.classifierResp ["message"]
          [("message", PyVal.str message)] with
      | Except.error e => Except.error e
      | Except.ok cOut =>
          match runPlainChain decode env.raterResp ["message"]
              [("message", PyVal.str message)] with
          | Except.error e => Except.error e
          | Except.ok rOut =>
              match OpenAIModerationChain._call {} env.modClient
                  [("message", message)] with
              | Except.error e => Except.error e
              | Except.ok mOut =>
                  Except.ok (aggregate ⟨dt.output, cOut, rOut, mOut⟩)

/-- ASCII lower-casing of one character (`str.lower()` on the alphabet the
keyword lists draw from). -/
def pyLowerChar (c : Char) : Char :=
  if 'A' ≤ c ∧ c ≤ 'Z' then Char.ofNat (c.toNat + 32) else c

/-- Python `s.lower()` (ASCII range; structurally recursive so that it
evaluates definitionally). -/
def pyLower (s : String) : String :=
  ⟨s.data.map pyLowerChar⟩

/-- `JsonBooleanChecker.true_vals` (llm_chains.py line 186). -/
def JsonBooleanChecker_true_vals : List String := ["true", "right", "yes"]

/-- `JsonBooleanChecker.false_vals` (llm_chains.py line 187). -/
def JsonBooleanChecker_false_vals : List String := ["false", "wrong", "no"]

/-- `JsonBooleanChecker.parse_result` (llm_chains.py lines 189-198):
booleans are skipped by the `isinstance` guards, strings are coerced via
`val.lower()` membership in the keyword lists, and any other value raises
`AttributeError` at `val.lower()`. -/
def JsonBooleanChecker_parse_result : PyDict → Except String PyDict
  | [] => Except.ok []
  | (k, v) :: rest =>
      match v with
      | PyVal.bool _ =>
          match JsonBooleanChecker_parse_result rest with
          | Except.error e => Except.error e
          | Except.ok r => Except.ok ((k, v) :: r)
      | PyVal.str s =>
          if pyLower s ∈ JsonBooleanChecker_true_vals then
            match JsonBooleanChecker_parse_result rest with
            | Except.error e => Except.error e
            | Except.ok r => Except.ok ((k, PyVal.bool true) :: r)
          else if pyLower s ∈ JsonBooleanChecker_false_vals then
            match JsonBooleanChecker_parse_result rest with
            | Except.error e => Except.error e
            | Except.ok r => Except.ok ((k, PyVal.bool false) :: r)
          else
            match JsonBooleanChecker_parse_result rest with
            | Except.error e => Except.error e
            | Except.ok r => Except.ok ((k, v) :: r)
      | _ => Except.error "AttributeError: object has no attribute lower"

/-- The boolean coercion policy in the words of the spec (section 4.2):
textual values case-insensitively matching true/right/yes become `true`,
false/wrong/no become `false`, anything else is left untouched. Stated
separately from the source translation so the two can be compared. -/
def specCoerce (v : PyVal) : PyVal :=
  match v with
  | PyVal.str s =>
      if pyLower s ∈ (["true", "right", "yes"] : List String) then
        PyVal.bool true
      else if pyLower s ∈ (["false", "wrong", "no"] : List String) then
        PyVal.bool false
      else v
  | _ => v

/-- Whether a value is a Python `str` or `bool`. -/
def isStrOrBool : PyVal → Bool
  | PyVal.str _ => true
  | PyVal.bool _ => true
  | _ => false

/-- The `ChatOpenAI` configuration as constructed by this repository:
`temperature = none` models calling `ChatOpenAI()` without a temperature
argument (the provider default applies, the code fixes nothing). -/
structure ChatOpenAI where
  model : String := "gpt-3.5-turbo"
  temperature : Option ℚ := none
deriving DecidableEq

/-- The llm built by `create_public_chat_gpt_chain` (llm_chains.py line
154): `ChatOpenAI(model=model, temperature=0.0, **model_kwargs)`. -/
def create_public_chat_gpt_chain_llm (model : String) : ChatOpenAI :=
  { model := model, temperature := some 0 }

/-- The default `llm` argument of both `parallel_text_analyser_chains`
(analyser.py line 40) and `analyse_text_message_with_llm` (line 101):
`ChatOpenAI()`, no temperature supplied. -/
def analyser_default_llm : ChatOpenAI := {}

/-- The llm used by each of the four analysis chains built from the given
`llm` argument: all four stages share the one passed instance
(analyser.py lines 67-70). -/
def analyser_stage_llms (llm : ChatOpenAI) : List (String × ChatOpenAI) :=
  [("detector", llm), ("validator", llm), ("classifier", llm),
   ("right-wing-rater", llm)]

/-! Concrete oracles and runs used by witnesses and counterexamples. -/

/-- A decoder on which every model response fails the JSON parse. -/
def decodeNone : String → Option PyDict := fun _ => none

/-- A concrete moderation result (scenario A of the spec): not flagged,
harassment category true. -/
def sampleMod : ModResult := ⟨false, [("harassment", true)], [("harassment", 1)]⟩

/-- Stage oracle whose first response is unparsable text and whose
plain-text retry succeeds. -/
def envC1 : StageEnv := ⟨Except.ok "not json", Except.ok "plain text answer"⟩

/-- Sequential run in which the detection model call fails at the
transport level. -/
def envC2 : SeqEnv :=
  ⟨Except.ok sampleMod,
   ⟨Except.error "ProviderError: rate limit", Except.error "ProviderError: rate limit"⟩,
   ⟨Except.ok "v", Except.ok "v"⟩,
   ⟨Except.ok "c", Except.ok "c"⟩,
   ⟨Except.ok "r", Except.ok "r"⟩⟩

/-- Sequential run in which the detector model returns unparsable garbage
on the structured attempt and raw text on the plain-text retry. -/
def envC4 : SeqEnv :=
  ⟨Except.ok sampleMod,
   ⟨Except.ok "not json", Except.ok "RAW GARBAGE"⟩,
   ⟨Except.ok "v", Except.ok "v"⟩,
   ⟨Except.ok "c", Except.ok "c"⟩,
   ⟨Except.ok "r", Except.ok "r"⟩⟩

/-- Detector output of the concrete parallel run (scenario A). -/
def detOutA : PyDict :=
  [("explanation", PyVal.str "It insults the reader"),
   ("classification", PyVal.str "Direct hate speech")]

/-- Validator output of the concrete parallel run (scenario A). -/
def valOutA : PyDict :=
  [("classification", PyVal.str "Direct hate speech"),
   ("explanation", PyVal.str "agree")]

/-- Classifier output of the concrete parallel run. -/
def clsOutA : PyDict :=
  [("classification", PyVal.str "Offensive insult"),
   ("racism", PyVal.bool false), ("antisemitism", PyVal.bool false),
   ("homophobia", PyVal.bool false), ("ableism", PyVal.bool false),
   ("violence", PyVal.bool false), ("sexism", PyVal.bool false),
   ("other_hate_speech", PyVal.bool true),
   ("explanation", PyVal.str "direct insult")]

/-- Right-wing-rater output of the concrete parallel run. -/
def ratOutA : PyDict :=
  [("right_wing_indicator", PyVal.bool false),
   ("rating", PyVal.str "0"), ("explanation", PyVal.str "none")]

/-- Decoder of the concrete scenario A runs: each stage response token
decodes to the corresponding structured output. -/
def decodeA : String → Option PyDict := fun t =>
  if t = "d" then some detOutA
  else if t = "v" then some valOutA
  else if t = "c" then some clsOutA
  else if t = "r" then some ratOutA
  else none

/-- Moderation client returning exactly one result (scenario A). -/
def modClientA : String → String → Except String (List ModResult) :=
  fun _ _ => Except.ok [sampleMod]

/-- Parallel-run oracle for scenario A. -/
def envA : ParEnv :=
  ⟨Except.ok "d", Except.ok "v", Except.ok "c", Except.ok "r", modClientA⟩

/-- The concrete scenario A detection branch result: the `message` slot of
the validator inputs carries the detector output dictionary. -/
def dtA : DetectionOut :=
  ⟨[("detector",
      PyVal.dict [("classification", PyVal.str "Direct hate speech"),
                  ("explanation", PyVal.str "It insults the reader")]),
    ("validator", PyVal.dict valOutA)],
   [("classification", PyVal.str "Direct hate speech"),
    ("explanation", PyVal.str "It insults the reader"),
    ("message", PyVal.dict detOutA)]⟩

/-- The completed scenario A run of the parallel analyser. -/
def runA : AnalysisRun :=
  ⟨dtA.output, clsOutA, ratOutA, [("mod_results", modVal sampleMod)]⟩

/-- The report produced by the concrete scenario A parallel run. -/
def reportA : PyDict :=
  aggregate runA

/-- Right-wing-rater output whose boolean field is the word "yes". -/
def ratOutYes : PyDict :=
  [("right_wing_indicator", PyVal.str "yes"),
   ("rating", PyVal.str "1"), ("explanation", PyVal.str "subtle")]

/-- Decoder for the sequential run in which the rater answers its boolean
field with the word "yes". -/
def decodeYes : String → Option PyDict := fun t =>
  if t = "d" then some detOutA
  else if t = "v" then some valOutA
  else if t = "c" then some clsOutA
  else if t = "r" then some ratOutYes
  else none

/-- Sequential-run oracle whose four stages answer with the scenario A
tokens. -/
def envSeqA : SeqEnv :=
  ⟨Except.ok sampleMod,
   ⟨Except.ok "d", Except.ok "d"⟩,
   ⟨Except.ok "v", Except.ok "v"⟩,
   ⟨Except.ok "c", Except.ok "c"⟩,
   ⟨Except.ok "r", Except.ok "r"⟩⟩

/-- The results mapping of the sequential run in which the rater answered
its boolean field with the word "yes". -/
def resultsYes : PyDict :=
  [("moderator", modVal sampleMod),
   ("detector", PyVal.dict detOutA),
   ("validator", PyVal.dict valOutA),
   ("classifier", PyVal.dict clsOutA),
   ("right-wing-rater", PyVal.dict ratOutYes)]

/-- A moderation result with flagged content. -/
def flaggedMod : ModResult := ⟨true, [("hate", true)], []⟩

/-- Moderation client returning flagged content. -/
def clientFlagged : String → String → Except String (List ModResult) :=
  fun _ _ => Except.ok [flaggedMod]

/-! Helper lemmas about Python dictionary operations. -/

theorem dictGet_dictSet_self (d : PyDict) (k : String) (v : PyVal) :
    dictGet (dictSet d k v) k = some v := by
  induction d with
  | nil => simp [dictSet, dictGet]
  | cons p rest ih =>
      obtain ⟨a, b⟩ := p
      by_cases h : a = k
      · simp [dictSet, dictGet, h]
      · simp [dictSet, dictGet, h, ih]

theorem dictGet_dictSet_ne (d : PyDict) (k key : String) (v : PyVal)
    (h : key ≠ k) : dictGet (dictSet d k v) key = dictGet d key := by
  have hk : k ≠ key := Ne.symm h
  induction d with
  | nil => simp [dictSet, dictGet, hk]
  | cons p rest ih =>
      obtain ⟨a, b⟩ := p
      by_cases hak : a = k
      · subst hak
        simp [dictSet, dictGet, hk]
      · simp [dictSet, dictGet, hak, ih]

theorem dictGet_dictUpdate_of_not_mem :
    ∀ (e d : PyDict) (key : String),
      (∀ p ∈ e, p.1 ≠ key) →
      dictGet (dictUpdate d e) key = dictGet d key := by
  intro e
  induction e with
  | nil => intro d key _; rfl
  | cons p rest ih =>
      intro d key h
      obtain ⟨a, b⟩ := p
      have ha : a ≠ key := h (a, b) (List.mem_cons_self _ _)
      show dictGet (dictUpdate (dictSet d a b) rest) key = dictGet d key
      rw [ih (dictSet d a b) key (fun q hq => h q (List.mem_cons_of_mem _ hq))]
      exact dictGet_dictSet_ne d a key b (Ne.symm ha)

theorem dictGet_dictUpdate_of_get :
    ∀ (e d : PyDict) (key : String) (v : PyVal),
      (e.map Prod.fst).Nodup → dictGet e key = some v →
      dictGet (dictUpdate d e) key = some v := by
  intro e
  induction e with
  | nil => intro d key v _ h; simp [dictGet] at h
  | cons p rest ih =>
      intro d key v hnd h
      obtain ⟨a, b⟩ := p
      simp only [List.map_cons, List.nodup_cons] at hnd
      obtain ⟨hna, hndr⟩ := hnd
      by_cases hak : a = key
      · subst hak
        have hb : b = v := by simpa [dictGet] using h
        subst hb
        show dictGet (dictUpdate (dictSet d a b) rest) a = some b
        rw [dictGet_dictUpdate_of_not_mem rest (dictSet d a b) a ?_]
        · exact dictGet_dictSet_self d a b
        · intro q hq hq1
          exact hna (hq1 ▸ List.mem_map_of_mem Prod.fst hq)
      · have h2 : dictGet rest key = some v := by simpa [dictGet, hak] using h
        show dictGet (dictUpdate (dictSet d a b) rest) key = some v
        exact ih (dictSet d a b) key v hndr h2

theorem runStages_trace_input (decode : String → Option PyDict) :
    ∀ (stages : List StageSpec) (input results : PyDict),
      (∀ s ∈ stages, s.name ≠ "detector") →
      ∀ e ∈ (runStages decode stages input results).2, e.input = input := by
  intro stages
  induction stages with
  | nil => intro input results _ e he; simp [runStages] at he
  | cons s rest ih =>
      intro input results hnames e he
      have hs : s.name ≠ "detector" := hnames s (List.mem_cons_self _ _)
      simp only [runStages] at he
      rcases hrs : runStage decode s.env s.vars input with ⟨res, c, w⟩
      rw [hrs] at he
      cases res with
      | error err =>
          simp at he
          rw [he]
      | ok out =>
          simp [hs, List.mem_cons] at he
          rcases he with he1 | he2
          · rw [he1]
          · exact ih input (results ++ [(s.name, chainOutVal out)])
              (fun q hq => hnames q (List.mem_cons_of_mem _ hq)) e he2

/-! Claim theorems. -/

/-- Claim C1 (confirmed): in the sequential analyser, a stage invocation
whose model response fails the structured decode logs the fallback warning,
makes exactly one additional model call with the plain-text parser (two
calls in total), and yields the raw-text fallback result whose payload is
that plain text; the stage fails only if the retry itself fails at the
transport level. -/
theorem C1_decode_failure_single_fallback_retry
    (decode : String → Option PyDict) (env : StageEnv) (vars : List String)
    (input rendered : PyDict) (t : String)
    (hrender : renderInputs vars input = Except.ok rendered)
    (hresp : env.resp1 = Except.ok t)
    (hdec : decode t = none) :
    (∀ t2, env.resp2 = Except.ok t2 →
        runStage decode env vars input = (Except.ok (ChainOut.raw t2), 2, true)) ∧
    (∀ err, env.resp2 = Except.error err →
        runStage decode env vars input = (Except.error err, 2, true)) := by
  constructor
  · intro t2 h2
    simp [runStage, hrender, hresp, hdec, h2]
  · intro err h2
    simp [runStage, hrender, hresp, hdec, h2]

/-- Witness for C1 at a concrete stage invocation. -/
theorem C1_witness :
    renderInputs ["message"] [("message", PyVal.str "m")]
      = Except.ok [("message", PyVal.str "m")] ∧
    envC1.resp1 = Except.ok "not json" ∧
    decodeNone "not json" = none ∧
    runStage decodeNone envC1 ["message"] [("message", PyVal.str "m")]
      = (Except.ok (ChainOut.raw "plain text answer"), 2, true) :=
  ⟨rfl, rfl, rfl,
    (C1_decode_failure_single_fallback_retry decodeNone envC1 ["message"]
        [("message", PyVal.str "m")] [("message", PyVal.str "m")] "not json"
        rfl rfl rfl).1 "plain text answer" rfl⟩

/-- Counterexample to claim C2 as stated: with a transport-failed detection
stage, the sequential analyser aborts with the propagated provider error:
it returns no results mapping at all, so no validation slot
`Failed("upstream detector failed")` is ever set, and the trace shows no
validator invocation. -/
theorem C2_counterexample :
    analyse_text_message_with_llm decodeNone envC2 "m"
      = (Except.error "ProviderError: rate limit",
         [⟨"detector", [("message", PyVal.str "m")], 1, false⟩]) := rfl

/-- Claim C2 (amended): if the detection stage fails, no validation model
call is issued, but instead of recording a `Failed` validation slot the
whole run aborts with the propagated detector error, producing no results
mapping; the trace contains only the detector invocation. -/
theorem C2_detector_failure_aborts_run
    (decode : String → Option PyDict) (env : SeqEnv) (message : String)
    (mod : ModResult) (e : String) (c : Nat) (w : Bool)
    (hmod : env.moderation = Except.ok mod)
    (hdet : runStage decode env.detector ["message"] [("message", PyVal.str message)]
        = (Except.error e, c, w)) :
    analyse_text_message_with_llm decode env message
      = (Except.error e, [⟨"detector", [("message", PyVal.str message)], c, w⟩]) := by
  simp [analyse_text_message_with_llm, hmod, textAnalyserStages, detectorSpec,
    runStages, hdet]

/-- Witness for the amended C2 at a concrete run. -/
theorem C2_witness :
    envC2.moderation = Except.ok sampleMod ∧
    runStage decodeNone envC2.detector ["message"] [("message", PyVal.str "m")]
      = (Except.error "ProviderError: rate limit", 1, false) ∧
    analyse_text_message_with_llm decodeNone envC2 "m"
      = (Except.error "ProviderError: rate limit",
         [⟨"detector", [("message", PyVal.str "m")], 1, false⟩]) :=
  ⟨rfl, rfl,
    C2_detector_failure_aborts_run decodeNone envC2 "m" sampleMod
      "ProviderError: rate limit" 1 false rfl rfl⟩

/-- Claim C4 (code bug): when the detector response is unparsable, the
sequential analyser does produce the raw-text fallback for the detector,
but then crashes inside `input.update(raw_text)` (`dict.update` over a
non-empty string raises `ValueError`), so the run aborts: no report with a
`FallbackRaw` detector slot exists and the validator is never invoked (the
trace stops at the detector). In the parallel analyser the same response
simply raises `OutputParserException` (no fallback at all). -/
theorem C4_detector_fallback_crashes_run :
    analyse_text_message_with_llm decodeNone envC4 "You suck!"
      = (Except.error
           "ValueError: dictionary update sequence element has length 1; 2 is required",
         [⟨"detector", [("message", PyVal.str "You suck!")], 2, true⟩]) ∧
    runPlainChain decodeNone (Except.ok "not json") ["message"]
        [("message", PyVal.str "You suck!")]
      = Except.error "OutputParserException" :=
  ⟨rfl, rfl⟩

/-- Claim C3 (code bug): in the parallel analyser the validator is causally
ordered after the detector and does receive the classification and
explanation extracted from the detector result, but its `message` prompt
variable is bound to the DETECTOR OUTPUT dictionary — `RunnablePassthrough`
inside `detector_chain` receives the upstream parser output, not the
original input message — so the validator never sees the message under
review. Evaluated at the concrete scenario A run. -/
theorem C3_validator_message_is_detector_output :
    detectionBranch decodeA (Except.ok "d") (Except.ok "v")
        [("message", PyVal.str "You suck!")] = Except.ok dtA ∧
    dictGet dtA.validatorInputs "classification"
      = some (PyVal.str "Direct hate speech") ∧
    dictGet dtA.validatorInputs "explanation"
      = some (PyVal.str "It insults the reader") ∧
    dictGet dtA.validatorInputs "message" = some (PyVal.dict detOutA) ∧
    PyVal.dict detOutA ≠ PyVal.str "You suck!" :=
  ⟨rfl, rfl, rfl, rfl, fun h => PyVal.noConfusion h⟩

/-- Counterexample to claim C5 as stated: in the concrete scenario A run,
the key path `moderator -> categories` does not exist in the report — the
moderation payload is nested one level deeper, under
`moderator -> mod_results`, which is where the harassment flag lives. -/
theorem C5_counterexample :
    parallel_text_analyser_chains decodeA envA "You suck!" = Except.ok reportA ∧
    pyGetPath (PyVal.dict reportA) ["moderator", "categories", "harassment"] = none ∧
    pyGetPath (PyVal.dict reportA)
        ["moderator", "mod_results", "categories", "harassment"]
      = some (PyVal.bool true) ∧
    pyGetPath (PyVal.dict reportA) ["detection", "validator", "classification"]
      = some (PyVal.str "Direct hate speech") :=
  ⟨rfl, rfl, rfl, rfl⟩

/-- Claim C5 (amended): a completed run of the parallel analyser yields a
report keyed exactly by `detection` (holding `detector` and `validator`),
`classifier`, `right_wing_rater` and `moderator`, but the moderation
payload is NOT directly under `moderator`: it sits under
`moderator -> mod_results`, so the harassment flag is
`report.moderator.mod_results.categories.harassment`. -/
theorem C5_report_shape
    (decode : String → Option PyDict) (env : ParEnv) (message : String)
    (dt : DetectionOut) (cOut rOut : PyDict) (r : ModResult) (rs : List ModResult)
    (hdet : detectionBranch decode env.detectorResp env.validatorResp
        [("message", PyVal.str message)] = Except.ok dt)
    (hcls : runPlainChain decode env.classifierResp ["message"]
        [("message", PyVal.str message)] = Except.ok cOut)
    (hrat : runPlainChain decode env.raterResp ["message"]
        [("message", PyVal.str message)] = Except.ok rOut)
    (hmodc : env.modClient message "text-moderation-latest" = Except.ok (r :: rs)) :
    parallel_text_analyser_chains decode env message
      = Except.ok (aggregate ⟨dt.output, cOut, rOut, [("mod_results", modVal r)]⟩) ∧
    pyKeys (aggregate ⟨dt.output, cOut, rOut, [("mod_results", modVal r)]⟩)
      = ["detection", "classifier", "right_wing_rater", "moderator"] ∧
    pyGetPath
        (PyVal.dict (aggregate ⟨dt.output, cOut, rOut, [("mod_results", modVal r)]⟩))
        ["moderator", "mod_results"] = some (modVal r) ∧
    pyGetPath
        (PyVal.dict (aggregate ⟨dt.output, cOut, rOut, [("mod_results", modVal r)]⟩))
        ["moderator", "categories"] = none := by
  refine ⟨?_, rfl, rfl, rfl⟩
  simp [parallel_text_analyser_chains, hdet, hcls, hrat,
    OpenAIModerationChain._call, lookupStr, hmodc]

/-- Witness for the amended C5 at the concrete scenario A run. -/
theorem C5_witness :
    detectionBranch decodeA envA.detectorResp envA.validatorResp
        [("message", PyVal.str "You suck!")] = Except.ok dtA ∧
    runPlainChain decodeA envA.classifierResp ["message"]
        [("message", PyVal.str "You suck!")] = Except.ok clsOutA ∧
    runPlainChain decodeA envA.raterResp ["message"]
        [("message", PyVal.str "You suck!")] = Except.ok ratOutA ∧
    envA.modClient "You suck!" "text-moderation-latest"
      = Except.ok [sampleMod] ∧
    parallel_text_analyser_chains decodeA envA "You suck!"
      = Except.ok
          (aggregate ⟨dtA.output, clsOutA, ratOutA, [("mod_results", modVal sampleMod)]⟩) :=
  ⟨rfl, rfl, rfl, rfl,
    (C5_report_shape decodeA envA "You suck!" dtA clsOutA ratOutA sampleMod []
        rfl rfl rfl rfl).1⟩

/-- Counterexample to claim C6 as stated: the boolean coercion is NOT part
of the pipeline response parsing. In a concrete sequential run whose rater
answers its boolean field with the word "yes", the produced result keeps
the string "yes" untouched instead of the boolean true. -/
theorem C6_counterexample :
    (analyse_text_message_with_llm decodeYes envSeqA "m").1 = Except.ok resultsYes ∧
    pyGetPath (PyVal.dict resultsYes) ["right-wing-rater", "right_wing_indicator"]
      = some (PyVal.str "yes") ∧
    PyVal.str "yes" ≠ PyVal.bool true :=
  ⟨rfl, rfl, fun h => PyVal.noConfusion h⟩

/-- Claim C6 (amended): the boolean coercion table is implemented by the
standalone `JsonBooleanChecker.parse_result` — on records of strings and
booleans it coerces exactly as the spec words say (any field, not only
boolean-typed ones) — but that checker is not wired into the analyser
pipelines: a stage whose response decodes successfully returns the decoded
record verbatim, with no coercion applied. -/
theorem C6_boolean_coercion_checker_vs_pipeline :
    (∀ d : PyDict, (∀ p ∈ d, isStrOrBool p.2 = true) →
        JsonBooleanChecker_parse_result d
          = Except.ok (d.map (fun p => (p.1, specCoerce p.2)))) ∧
    (∀ (decode : String → Option PyDict) (env : StageEnv) (vars : List String)
        (input rendered d : PyDict) (t : String),
        renderInputs vars input = Except.ok rendered →
        env.resp1 = Except.ok t → decode t = some d →
        runStage decode env vars input = (Except.ok (ChainOut.parsed d), 1, false)) := by
  constructor
  · intro d hd
    induction d with
    | nil => rfl
    | cons p rest ih =>
        obtain ⟨k, v⟩ := p
        have hv : isStrOrBool v = true := hd (k, v) (List.mem_cons_self _ _)
        have hrest := ih (fun q hq => hd q (List.mem_cons_of_mem _ hq))
        cases v with
        | str s =>
            simp only [JsonBooleanChecker_parse_result, JsonBooleanChecker_true_vals,
              JsonBooleanChecker_false_vals, specCoerce, hrest, List.map_cons]
            split_ifs <;> rfl
        | bool b => simp [JsonBooleanChecker_parse_result, specCoerce, hrest]
        | int n => simp [isStrOrBool] at hv
        | dict e => simp [isStrOrBool] at hv
  · intro decode env vars input rendered d t hrender hresp hdec
    simp [runStage, hrender, hresp, hdec]

/-- Witness for the amended C6: the checker coerces the concrete rater
record, and a concrete successful stage invocation returns the decoded
record verbatim. -/
theorem C6_witness :
    (∀ p ∈ ratOutYes, isStrOrBool p.2 = true) ∧
    JsonBooleanChecker_parse_result ratOutYes
      = Except.ok (ratOutYes.map (fun p => (p.1, specCoerce p.2))) ∧
    ratOutYes.map (fun p => (p.1, specCoerce p.2))
      = [("right_wing_indicator", PyVal.bool true),
         ("rating", PyVal.str "1"), ("explanation", PyVal.str "subtle")] ∧
    runStage decodeYes envSeqA.rater ["message"] [("message", PyVal.str "m")]
      = (Except.ok (ChainOut.parsed ratOutYes), 1, false) := by
  refine ⟨by decide, ?_, rfl, ?_⟩
  · exact (C6_boolean_coercion_checker_vs_pipeline).1 ratOutYes (by decide)
  · exact (C6_boolean_coercion_checker_vs_pipeline).2 decodeYes envSeqA.rater
      ["message"] [("message", PyVal.str "m")] [("message", PyVal.str "m")]
      ratOutYes "r" rfl rfl rfl

/-- Counterexample to claim C7 as stated: the analyser pipeline functions
take the llm as a caller argument whose default is `ChatOpenAI()` with no
temperature set, so the detector stage invocation of a default-configured
pipeline does not use temperature 0; nothing in the pipeline fixes it. -/
theorem C7_counterexample :
    List.lookup "detector" (analyser_stage_llms analyser_default_llm)
      = some analyser_default_llm ∧
    analyser_default_llm.temperature ≠ some 0 := by
  refine ⟨rfl, ?_⟩
  decide

/-- Claim C7 (amended): only the helper `create_public_chat_gpt_chain`
fixes the completion temperature at 0; the analyser pipelines hand the one
caller-supplied llm unchanged to all four stages, and their default
`ChatOpenAI()` leaves the temperature unspecified, so stage invocations run
at temperature 0 only when the caller configures the llm that way. -/
theorem C7_temperature_policy :
    (∀ model : String, (create_public_chat_gpt_chain_llm model).temperature = some 0) ∧
    (∀ llm : ChatOpenAI,
        analyser_stage_llms llm
          = [("detector", llm), ("validator", llm), ("classifier", llm),
             ("right-wing-rater", llm)]) ∧
    analyser_default_llm.temperature = none :=
  ⟨fun _ => rfl, fun _ => rfl, rfl⟩

/-- Claim C8 (confirmed): the report assembly is a pure total function of
the completed run — in the embedding it is a Lean function, so it is
deterministic and side-effect free by construction — and for every
completed run (whose detection branch output carries the `detector` and
`validator` entries, as the detection branch always produces) the report
has exactly the top-level keys `detection`, `classifier`,
`right_wing_rater`, `moderator`, with `detector` and `validator` nested
under `detection`: all five slots present, no missing or extra slot keys. -/
theorem C8_aggregate_pure_total_keys (run : AnalysisRun)
    (hdet : pyKeys run.detection = ["detector", "validator"]) :
    aggregate run = aggregate run ∧
    pyKeys (aggregate run)
      = ["detection", "classifier", "right_wing_rater", "moderator"] ∧
    dictGet (aggregate run) "detection" = some (PyVal.dict run.detection) ∧
    dictGet (aggregate run) "classifier" = some (PyVal.dict run.classifier) ∧
    dictGet (aggregate run) "right_wing_rater"
      = some (PyVal.dict run.right_wing_rater) ∧
    dictGet (aggregate run) "moderator" = some (PyVal.dict run.moderator) ∧
    pyKeys run.detection = ["detector", "validator"] :=
  ⟨rfl, rfl, rfl, rfl, rfl, rfl, hdet⟩

/-- Witness for C8 at the concrete completed scenario A run. -/
theorem C8_witness :
    pyKeys runA.detection = ["detector", "validator"] ∧
    (aggregate runA = aggregate runA ∧
     pyKeys (aggregate runA)
       = ["detection", "classifier", "right_wing_rater", "moderator"] ∧
     dictGet (aggregate runA) "detection" = some (PyVal.dict runA.detection) ∧
     dictGet (aggregate runA) "classifier" = some (PyVal.dict runA.classifier) ∧
     dictGet (aggregate runA) "right_wing_rater"
       = some (PyVal.dict runA.right_wing_rater) ∧
     dictGet (aggregate runA) "moderator" = some (PyVal.dict runA.moderator) ∧
     pyKeys runA.detection = ["detector", "validator"]) :=
  ⟨rfl, C8_aggregate_pure_total_keys runA rfl⟩

/-- If a key is absent from a dictionary, no entry carries it. -/
theorem dictGet_none_not_mem :
    ∀ (d : PyDict) (key : String), dictGet d key = none →
      ∀ p ∈ d, p.1 ≠ key := by
  intro d
  induction d with
  | nil => intro key h p hp; simp at hp
  | cons q rest ih =>
      intro key h p hp
      obtain ⟨a, b⟩ := q
      by_cases hak : a = key
      · rw [hak] at h
        simp [dictGet] at h
      · rcases List.mem_cons.mp hp with h1 | h2
        · rw [h1]; exact hak
        · exact ih key (by simpa [dictGet, hak] using h) p h2

/-- Claim C10 (confirmed): `OpenAIModerationChain._call` never raises on
flagged content — the quantification over `r` covers flagged results and
over `e` covers both settings of the declared-but-never-consulted `error`
field — it returns the full first moderation result under the
`mod_results` output key, and it fails exactly when the underlying client
call fails, propagating that transport error. -/
theorem C10_moderation_chain_error_flag_unused
    (e : Bool) (client : String → String → Except String (List ModResult))
    (inputs : List (String × String)) (msg : String)
    (hmsg : lookupStr inputs "message" = some msg) :
    (∀ r rs, client msg "text-moderation-latest" = Except.ok (r :: rs) →
        OpenAIModerationChain._call { error := e } client inputs
          = Except.ok [("mod_results", modVal r)]) ∧
    (∀ err, client msg "text-moderation-latest" = Except.error err →
        OpenAIModerationChain._call { error := e } client inputs
          = Except.error err) := by
  constructor
  · intro r rs h
    simp [OpenAIModerationChain._call, hmsg, h]
  · intro err h
    simp [OpenAIModerationChain._call, hmsg, h]

/-- Witness for C10: flagged content, `error := true`, no exception — the
full flagged result is returned under `mod_results`. -/
theorem C10_witness :
    lookupStr [("message", "bad content")] "message" = some "bad content" ∧
    clientFlagged "bad content" "text-moderation-latest"
      = Except.ok [flaggedMod] ∧
    OpenAIModerationChain._call { error := true } clientFlagged
        [("message", "bad content")]
      = Except.ok [("mod_results", modVal flaggedMod)] :=
  ⟨rfl, rfl,
    (C10_moderation_chain_error_flag_unused true clientFlagged
        [("message", "bad content")] "bad content" rfl).1 flaggedMod [] rfl⟩

/-- Claim C9 (confirmed): in the sequential analyser the stage order is the
fixed list detector, validator, classifier, right-wing-rater; the validator
prompt cannot even render from the initial input (its `classification`
variable is missing), and running the list with the validator ahead of the
detector fails with that `KeyError` — so correctness depends on the fixed
iteration order. After a successful detector stage, the detector output is
merged in place into the shared input mapping (which then carries the
detector `classification` and `explanation` alongside the original
message), and every later stage — the classifier and the right-wing-rater,
not only the validator — is invoked on that merged mapping. -/
theorem C9_detector_merge_shared_state
    (decode : String → Option PyDict) (env : SeqEnv) (message : String)
    (t : String) (d : PyDict) (c ex : PyVal) (mod : ModResult)
    (hmod : env.moderation = Except.ok mod)
    (hresp : env.detector.resp1 = Except.ok t)
    (hdec : decode t = some d)
    (hc : dictGet d "classification" = some c)
    (hex : dictGet d "explanation" = some ex)
    (hnd : (d.map Prod.fst).Nodup)
    (hmsg : dictGet d "message" = none) :
    ((textAnalyserStages env).map StageSpec.name
        = ["detector", "validator", "classifier", "right-wing-rater"]) ∧
    (renderInputs ["classification", "explanation", "message"]
        [("message", PyVal.str message)] = Except.error "KeyError: classification") ∧
    ((runStages decode
        [validatorSpec env, detectorSpec env, classifierSpec env, raterSpec env]
        [("message", PyVal.str message)] [("moderator", modVal mod)]).1
        = Except.error "KeyError: classification") ∧
    (dictGet (dictUpdate [("message", PyVal.str message)] d) "classification"
        = some c) ∧
    (dictGet (dictUpdate [("message", PyVal.str message)] d) "explanation"
        = some ex) ∧
    (dictGet (dictUpdate [("message", PyVal.str message)] d) "message"
        = some (PyVal.str message)) ∧
    (∃ rest, (analyse_text_message_with_llm decode env message).2
        = ⟨"detector", [("message", PyVal.str message)], 1, false⟩ :: rest ∧
      ∀ e2 ∈ rest, e2.input = dictUpdate [("message", PyVal.str message)] d) := by
  refine ⟨rfl, rfl, rfl, ?_, ?_, ?_, ?_⟩
  · exact dictGet_dictUpdate_of_get d [("message", PyVal.str message)]
      "classification" c hnd hc
  · exact dictGet_dictUpdate_of_get d [("message", PyVal.str message)]
      "explanation" ex hnd hex
  · rw [dictGet_dictUpdate_of_not_mem d [("message", PyVal.str message)] "message"
      (dictGet_none_not_mem d "message" hmsg)]
    rfl
  · refine ⟨(runStages decode [validatorSpec env, classifierSpec env, raterSpec env]
        (dictUpdate [("message", PyVal.str message)] d)
        [("moderator", modVal mod), ("detector", PyVal.dict d)]).2, ?_, ?_⟩
    · have hstage : runStage decode env.detector ["message"]
          [("message", PyVal.str message)]
          = (Except.ok (ChainOut.parsed d), 1, false) := by
        simp [runStage, renderInputs, dictGet, hresp, hdec]
      simp only [analyse_text_message_with_llm, hmod, textAnalyserStages]
      simp only [runStages, detectorSpec, hstage, pyUpdate, chainOutVal]
      simp
    · exact runStages_trace_input decode
        [validatorSpec env, classifierSpec env, raterSpec env]
        (dictUpdate [("message", PyVal.str message)] d)
        [("moderator", modVal mod), ("detector", PyVal.dict d)]
        (by
          intro s hs
          rcases List.mem_cons.mp hs with h1 | hs2
          · rw [h1]; simp [validatorSpec]
          · rcases List.mem_cons.mp hs2 with h2 | hs3
            · rw [h2]; simp [classifierSpec]
            · rcases List.mem_cons.mp hs3 with h3 | hs4
              · rw [h3]; simp [raterSpec]
              · simp at hs4)

/-- Witness for C9 at the concrete scenario A sequential run. -/
theorem C9_witness :
    decodeA "d" = some detOutA ∧
    dictGet detOutA "classification" = some (PyVal.str "Direct hate speech") ∧
    dictGet detOutA "explanation" = some (PyVal.str "It insults the reader") ∧
    (detOutA.map Prod.fst).Nodup ∧
    dictGet detOutA "message" = none ∧
    (∃ rest, (analyse_text_message_with_llm decodeA envSeqA "m").2
        = ⟨"detector", [("message", PyVal.str "m")], 1, false⟩ :: rest ∧
      ∀ e2 ∈ rest, e2.input = dictUpdate [("message", PyVal.str "m")] detOutA) := by
  refine ⟨rfl, rfl, rfl, by decide, rfl, ?_⟩
  exact (C9_detector_merge_shared_state decodeA envSeqA "m" "d" detOutA
      (PyVal.str "Direct hate speech") (PyVal.str "It insults the reader") sampleMod
      rfl rfl rfl rfl rfl (by decide) rfl).2.2.2.2.2.2
